import Mathlib

/-!
Verification of the PeakForm analytical core against its specification.

The Python source under `src/peakform/` is shallowly embedded here:
strings are `List Char`, Python `float` cells are `Option ℚ` (with `none`
playing the role of the NaN missing marker), dates are integer day numbers,
and pandas windows/series are explicit lists of the present (non-NaN) values.
-/

namespace PeakForm

/-! ### Character and decimal-representation helpers -/

/-- ASCII digit test, the `\d` of the source's regexes. -/
def isDigitChar (c : Char) : Bool := 48 ≤ c.toNat && c.toNat ≤ 57

/-- Whitespace stripped by Python's `str.strip()` (common ASCII cases). -/
def isSpaceChar (c : Char) : Bool :=
  c == ' ' || c == '\t' || c == '\n' || c == '\r'

/-- The decimal digit character for `n < 10`. -/
def digitChar (n : ℕ) : Char := Char.ofNat (48 + n)

/-- Numeric value of a digit character. -/
def charVal (c : Char) : ℕ := c.toNat - 48

/-- Little-endian digit list of `n` (least significant first); the first
argument is recursion fuel, always called with fuel `> n`. -/
def natDigitsRevAux : ℕ → ℕ → List Char
  | 0, _ => []
  | fuel + 1, n =>
      if n < 10 then [digitChar n]
      else digitChar (n % 10) :: natDigitsRevAux fuel (n / 10)

/-- Canonical decimal representation of a natural number (Python `str(n)`). -/
def natRepr (n : ℕ) : List Char := (natDigitsRevAux (n + 1) n).reverse

/-- Decimal representation of an integer (Python `str(z)`). -/
def intRepr (z : ℤ) : List Char :=
  if z < 0 then '-' :: natRepr (-z).toNat else natRepr z.toNat

/-- Value of a big-endian digit string, as computed by `int(s)` on digits. -/
def digitsToNat (cs : List Char) : ℕ :=
  cs.foldl (fun a c => 10 * a + charVal c) 0

/-- Python `str.strip()`. -/
def pyStrip (cs : List Char) : List Char :=
  ((cs.dropWhile isSpaceChar).reverse.dropWhile isSpaceChar).reverse

/-- Python `round()` to an integer: round half to even (banker's rounding). -/
def pyRound (q : ℚ) : ℤ :=
  let f := q.floor
  let r := q - (f : ℚ)
  if r < 1 / 2 then f
  else if 1 / 2 < r then f + 1
  else if f % 2 = 0 then f else f + 1

/-- Python `f"{q:.0f}"`: round to 0 decimals, print the integer. -/
def fmt0f (q : ℚ) : List Char := intRepr (pyRound q)

/-- Python `f"{q:.1f}"`: round to 1 decimal, print with one fractional digit. -/
def fmt1f (q : ℚ) : List Char :=
  let t := pyRound (q * 10)
  let a := t.natAbs
  (if t < 0 then ['-'] else []) ++ natRepr (a / 10) ++ '.' :: natRepr (a % 10)

/-! ### Python numeric-literal parsing (`float(s)` / `int(s)`) -/

/-- Split a list into its longest digit prefix and the rest. -/
def spanDigits (cs : List Char) : List Char × List Char :=
  (cs.takeWhile isDigitChar, cs.dropWhile isDigitChar)

/-- Optional sign parsing, returning the sign as `1` or `-1` and the rest. -/
def parseSign : List Char → ℤ × List Char
  | '-' :: rest => (-1, rest)
  | '+' :: rest => (1, rest)
  | cs => (1, cs)

/-- Exponent suffix of a float literal: empty, or `e`/`E`, optional sign,
one or more digits.  Returns the exponent when the whole rest is consumed. -/
def parseExponent : List Char → Option ℤ
  | [] => some 0
  | 'e' :: rest =>
      let (sg, rest') := parseSign rest
      let (ds, rest'') := spanDigits rest'
      if ds ≠ [] ∧ rest'' = [] then some (sg * digitsToNat ds) else none
  | 'E' :: rest =>
      let (sg, rest') := parseSign rest
      let (ds, rest'') := spanDigits rest'
      if ds ≠ [] ∧ rest'' = [] then some (sg * digitsToNat ds) else none
  | _ => none

/-- Mantissa and exponent of a decimal literal:
`digits [. digits] exponent` or `. digits exponent`. -/
def parseMantissa (cs : List Char) : Option ℚ :=
  let (ip, r1) := spanDigits cs
  match r1 with
  | '.' :: r2 =>
      let (fp, r3) := spanDigits r2
      if ip = [] ∧ fp = [] then none
      else
        match parseExponent r3 with
        | some e =>
            some (((digitsToNat ip : ℚ) + (digitsToNat fp : ℚ) / (10 : ℚ) ^ fp.length)
              * (10 : ℚ) ^ e)
        | none => none
  | _ =>
      if ip = [] then none
      else
        match parseExponent r1 with
        | some e => some ((digitsToNat ip : ℚ) * (10 : ℚ) ^ e)
        | none => none

/-- Model of Python `float(s)` on the decimal literals the source feeds it
(sign, digits, optional fraction, optional exponent; surrounding whitespace
stripped).  Strings outside this grammar raise `ValueError` in Python,
modelled as `none`. -/
def pyFloat (cs : List Char) : Option ℚ :=
  let s := pyStrip cs
  let (sg, rest) := parseSign s
  match parseMantissa rest with
  | some v => some ((sg : ℚ) * v)
  | none => none

/-- Model of Python `int(s)`: optional sign then digits only. -/
def pyInt (cs : List Char) : Option ℤ :=
  let s := pyStrip cs
  let (sg, rest) := parseSign s
  let (ds, rest') := spanDigits rest
  if ds ≠ [] ∧ rest' = [] then some (sg * digitsToNat ds) else none

/-! ### Garmin parser cell conversions (`src/peakform/parsers/garmin.py`) -/

/-- The sentinel test `s in ("--", "", "nan")` applied after stripping; the
two sentinel strings are written as explicit character lists. -/
def pySentinel (cs : List Char) : Bool :=
  decide (cs = ['-', '-'] ∨ cs = [] ∨ cs = ['n', 'a', 'n'])

/-- `_strip_comma_numeric`: comma-grouped numeric cell to float;
`"--"`/empty/`"nan"` and unparsable values become missing (`none`). -/
def strip_comma_numeric (cs : List Char) : Option ℚ :=
  let s := pyStrip cs
  if pySentinel s then none
  else pyFloat (s.filter (fun c => c ≠ ','))

/-- The regex `^(\d+):(\d{2})$` of `_pace_to_decimal_minutes`:
minutes digits, a colon, exactly two second digits. -/
def matchPace (cs : List Char) : Option (ℕ × ℕ) :=
  match cs.takeWhile isDigitChar, cs.dropWhile isDigitChar with
  | [], _ => none
  | ds, ':' :: d1 :: d2 :: [] =>
      if isDigitChar d1 && isDigitChar d2 then
        some (digitsToNat ds, 10 * charVal d1 + charVal d2)
      else none
  | _, _ => none

/-- `_pace_to_decimal_minutes`: `"MM:SS"` to decimal minutes; sentinels and
unparsable strings become missing; a bare numeric string is accepted as
already-decimal. -/
def pace_to_decimal_minutes (cs : List Char) : Option ℚ :=
  let s := pyStrip cs
  if pySentinel s then none
  else
    match matchPace s with
    | some p => some ((p.1 : ℚ) + (p.2 : ℚ) / 60)
    | none => pyFloat s

/-- Python `f"{n:02d}"` for the second field (always in `[0, 59]` here). -/
def pad2 (n : ℕ) : List Char :=
  if n < 10 then '0' :: natRepr n else natRepr n

/-- `_decimal_minutes_to_mmss`: decimal minutes back to an `"M:SS"` display
string; a missing value displays as `"--"`.  `//` and `%` are Python floor
division and modulus, i.e. `Int.fdiv`/`Int.fmod`. -/
def decimal_minutes_to_mmss (x : Option ℚ) : List Char :=
  match x with
  | none => ("--").data
  | some q =>
      let t := pyRound (q * 60)
      intRepr (t.fdiv 60) ++ ':' :: pad2 (t.fmod 60).toNat

/-- `format_pace`: the report-formatter alias of `_decimal_minutes_to_mmss`. -/
def format_pace (x : Option ℚ) : List Char := decimal_minutes_to_mmss x

/-- `_clean_generic`: generic numeric cell; sentinels and unparsable strings
become missing. -/
def clean_generic (cs : List Char) : Option ℚ :=
  let s := pyStrip cs
  if pySentinel s then none
  else pyFloat s

/-- `_parse_duration`: `"H:MM:SS"`/`"MM:SS"` to total seconds, otherwise a
best-effort float parse; sentinels and any `ValueError` become missing. -/
def parse_duration (cs : List Char) : Option ℚ :=
  let s := pyStrip cs
  if pySentinel s then none
  else
    match s.splitOn ':' with
    | [a, b, c] =>
        match pyInt a, pyInt b, pyFloat c with
        | some h, some m, some sec => some ((h : ℚ) * 3600 + (m : ℚ) * 60 + sec)
        | _, _, _ => none
    | [a, b] =>
        match pyInt a, pyFloat b with
        | some m, some sec => some ((m : ℚ) * 60 + sec)
        | _, _ => none
    | _ => pyFloat s

/-- A valid `MM:SS` pace string: canonically-written minutes, a colon, and a
two-digit second field. -/
def mmssOf (m sec : ℕ) : List Char := natRepr m ++ ':' :: pad2 sec

/-! ### Analyzer output records consumed by the signal detector
(`analyzers/signals.py`); each record carries exactly the fields `detect`
reads. -/

def GROUND_CONTACT_CONCERN_MS : ℚ := 5

structure RunWeekStats where
  total_miles : ℚ
  flat_avg_pace_dec : Option ℚ
  flat_avg_hr : Option ℚ
  flat_avg_ground_contact_ms : Option ℚ
  avg_body_battery_drain : Option ℚ

structure RunningAnalysis where
  current : RunWeekStats
  rolling_4wk : RunWeekStats
  mileage_change_pct : Option ℚ
  ground_contact_change_ms : Option ℚ
  overreach_flag : Bool
  recovery_debt_flag : Bool
  aerobic_adaptation_signal : Bool
  fatigue_signal : Bool

structure StrengthAnalysis where
  pr_exercises : List (List Char)
  missed_muscle_groups : List (List Char)
  volume_drop_flags : List (List Char × ℚ)

structure NutritionWeekStats where
  avg_protein_g : Option ℚ
  avg_carbs_g : Option ℚ
  calorie_stdev : Option ℚ

structure NutritionAnalysis where
  current : NutritionWeekStats
  weekly_mileage : ℚ
  low_protein_flag : Bool
  low_carb_underfuel_flag : Bool
  high_calorie_variance_flag : Bool
  micronutrient_flags : List (List Char × ℚ)

structure BodyCompAnalysis where
  weight_rising_despite_deficit : Bool
  algorithm_recalibrating : Bool

/-- A detected signal: severity icon, category, message. -/
structure Signal where
  icon : List Char
  category : List Char
  message : List Char

/-! ### Message formatting used by `detect` -/

/-- Python `str.replace` of underscores with spaces. -/
def underscoreToSpace (cs : List Char) : List Char :=
  cs.map (fun c => if c = '_' then ' ' else c)

/-- Python `str.title()` on ASCII text: uppercase a letter that follows a
non-letter, lowercase the rest. -/
def pyTitleAux : Bool → List Char → List Char
  | _, [] => []
  | prevAlpha, c :: rest =>
      (if c.isAlpha then (if prevAlpha then c.toLower else c.toUpper) else c)
        :: pyTitleAux c.isAlpha rest

def pyTitle (cs : List Char) : List Char := pyTitleAux false cs

/-- Python `", ".join(...)`. -/
def joinCommaSpace (ls : List (List Char)) : List Char :=
  (ls.intersperse ((", ").data)).flatten

def goodIcon : List Char := ("✅").data

def warnIcon : List Char := ("⚠️").data

def aerobicMsg (r : RunningAnalysis) : List Char :=
  ("Pace improving (").data ++ format_pace r.rolling_4wk.flat_avg_pace_dec
    ++ (" → ").data ++ format_pace r.current.flat_avg_pace_dec
    ++ ("/mi) with HR holding steady at ").data
    ++ fmt0f (r.current.flat_avg_hr.getD 0)
    ++ (" — aerobic adaptation confirmed.").data

def fatigueMsg (r : RunningAnalysis) : List Char :=
  ("Pace slower + HR higher than 4-week avg (").data
    ++ format_pace r.rolling_4wk.flat_avg_pace_dec ++ (" → ").data
    ++ format_pace r.current.flat_avg_pace_dec ++ ("/mi, HR ").data
    ++ fmt0f (r.rolling_4wk.flat_avg_hr.getD 0) ++ (" → ").data
    ++ fmt0f (r.current.flat_avg_hr.getD 0)
    ++ (") — potential fatigue or overtraining.").data

def overreachMsg (r : RunningAnalysis) : List Char :=
  ("Weekly mileage is ").data ++ fmt0f (r.mileage_change_pct.getD 0 * 100)
    ++ ("% above 4-week average (").data ++ fmt1f r.rolling_4wk.total_miles
    ++ (" → ").data ++ fmt1f r.current.total_miles
    ++ (" mi) — injury risk threshold exceeded.").data

def recoveryMsg (r : RunningAnalysis) : List Char :=
  ("Average Body Battery drain per run is ").data
    ++ fmt0f (r.current.avg_body_battery_drain.getD 0)
    ++ (" (threshold: 15) — recovery debt accumulating.").data

def gctMsg (r : RunningAnalysis) : List Char :=
  ("Ground contact time rising (").data
    ++ fmt0f (r.rolling_4wk.flat_avg_ground_contact_ms.getD 0) ++ (" → ").data
    ++ fmt0f (r.current.flat_avg_ground_contact_ms.getD 0) ++ (" ms, +").data
    ++ fmt0f (r.ground_contact_change_ms.getD 0)
    ++ (" ms) — possible glute/hip fatigue or form breakdown.").data

def prMsg (s : StrengthAnalysis) : List Char :=
  ("Progressive overload confirmed: ").data ++ natRepr s.pr_exercises.length
    ++ (" exercise(s) hit new max weight this week.").data

def missedMsg (s : StrengthAnalysis) : List Char :=
  ("Zero sets logged for priority muscle group(s): ").data
    ++ joinCommaSpace s.missed_muscle_groups ++ (".").data

def volumeDropMsg (p : List Char × ℚ) : List Char :=
  p.1 ++ (" volume dropped ").data ++ fmt0f p.2 ++ ("% vs. 4-week average.").data

def proteinMsg (n : NutritionAnalysis) : List Char :=
  ("Avg daily protein ").data ++ fmt0f (n.current.avg_protein_g.getD 0)
    ++ ("g is below the 140g muscle-preservation threshold — risk of muscle loss during caloric deficit.").data

def carbMsg (n : NutritionAnalysis) : List Char :=
  ("Avg carbs ").data ++ fmt0f (n.current.avg_carbs_g.getD 0)
    ++ ("g/day while running ").data ++ fmt1f n.weekly_mileage
    ++ (" mi/week — underfueling risk for performance and recovery.").data

def varianceMsg (n : NutritionAnalysis) : List Char :=
  ("Calorie intake std deviation is ").data
    ++ fmt0f (n.current.calorie_stdev.getD 0)
    ++ (" kcal (threshold: 300) — inconsistent adherence may slow fat loss.").data

def microMsg (p : List Char × ℚ) : List Char :=
  pyTitle (underscoreToSpace p.1) ++ (" averaging ").data ++ fmt0f p.2
    ++ ("% of daily target — consider food sources or supplementation.").data

def risingMsg : List Char :=
  ("Trend weight rising despite a logged caloric deficit — MacroFactor is still recalibrating from the tracking gap. Maintain consistent logging; the algorithm needs 2–3 more weeks of data.").data

def recalMsg : List Char :=
  ("Still within the first 3 weeks post-tracking restart. MacroFactor expenditure estimate (currently ~2,009 kcal) is likely underestimating true TDEE given run volume. Consistency now = faster recalibration.").data

/-- The ground-contact condition of `detect`: delta present and above the
5 ms concern threshold. -/
def gctTrigger (x : Option ℚ) : Bool :=
  match x with
  | some g => decide (GROUND_CONTACT_CONCERN_MS < g)
  | none => false

/-- `signals.detect`: the source appends each triggered signal to one list
in this exact order; each `signals.append` under a condition is written as
a conditional singleton, each `for` loop over a flags dict as a mapped
list. -/
def detect (r : RunningAnalysis) (s : StrengthAnalysis) (n : NutritionAnalysis)
    (b : BodyCompAnalysis) : List Signal :=
  (if r.aerobic_adaptation_signal then [⟨goodIcon, ("Running").data, aerobicMsg r⟩] else [])
  ++ (if r.fatigue_signal then [⟨warnIcon, ("Running").data, fatigueMsg r⟩] else [])
  ++ (if r.overreach_flag && r.mileage_change_pct.isSome then
        [⟨warnIcon, ("Running").data, overreachMsg r⟩] else [])
  ++ (if r.recovery_debt_flag then [⟨warnIcon, ("Running").data, recoveryMsg r⟩] else [])
  ++ (if gctTrigger r.ground_contact_change_ms then
        [⟨warnIcon, ("Running").data, gctMsg r⟩] else [])
  ++ (if s.pr_exercises ≠ [] then [⟨goodIcon, ("Strength").data, prMsg s⟩] else [])
  ++ (if s.missed_muscle_groups ≠ [] then
        [⟨warnIcon, ("Strength").data, missedMsg s⟩] else [])
  ++ s.volume_drop_flags.map (fun p => ⟨warnIcon, ("Strength").data, volumeDropMsg p⟩)
  ++ (if n.low_protein_flag then [⟨warnIcon, ("Nutrition").data, proteinMsg n⟩] else [])
  ++ (if n.low_carb_underfuel_flag then [⟨warnIcon, ("Nutrition").data, carbMsg n⟩] else [])
  ++ (if n.high_calorie_variance_flag then
        [⟨warnIcon, ("Nutrition").data, varianceMsg n⟩] else [])
  ++ n.micronutrient_flags.map (fun p => ⟨warnIcon, ("Nutrition").data, microMsg p⟩)
  ++ (if b.weight_rising_despite_deficit then
        [⟨warnIcon, ("Body Comp").data, risingMsg⟩] else [])
  ++ (if b.algorithm_recalibrating then [⟨warnIcon, ("Body Comp").data, recalMsg⟩] else [])

/-- The running group of signals as the spec describes the ordering. -/
def runningSignals (r : RunningAnalysis) : List Signal :=
  (if r.aerobic_adaptation_signal then [⟨goodIcon, ("Running").data, aerobicMsg r⟩] else [])
  ++ (if r.fatigue_signal then [⟨warnIcon, ("Running").data, fatigueMsg r⟩] else [])
  ++ (if r.overreach_flag && r.mileage_change_pct.isSome then
        [⟨warnIcon, ("Running").data, overreachMsg r⟩] else [])
  ++ (if r.recovery_debt_flag then [⟨warnIcon, ("Running").data, recoveryMsg r⟩] else [])
  ++ (if gctTrigger r.ground_contact_change_ms then
        [⟨warnIcon, ("Running").data, gctMsg r⟩] else [])

/-- The strength group of signals. -/
def strengthSignals (s : StrengthAnalysis) : List Signal :=
  (if s.pr_exercises ≠ [] then [⟨goodIcon, ("Strength").data, prMsg s⟩] else [])
  ++ (if s.missed_muscle_groups ≠ [] then
        [⟨warnIcon, ("Strength").data, missedMsg s⟩] else [])
  ++ s.volume_drop_flags.map (fun p => ⟨warnIcon, ("Strength").data, volumeDropMsg p⟩)

/-- The nutrition group of signals. -/
def nutritionSignals (n : NutritionAnalysis) : List Signal :=
  (if n.low_protein_flag then [⟨warnIcon, ("Nutrition").data, proteinMsg n⟩] else [])
  ++ (if n.low_carb_underfuel_flag then [⟨warnIcon, ("Nutrition").data, carbMsg n⟩] else [])
  ++ (if n.high_calorie_variance_flag then
        [⟨warnIcon, ("Nutrition").data, varianceMsg n⟩] else [])
  ++ n.micronutrient_flags.map (fun p => ⟨warnIcon, ("Nutrition").data, microMsg p⟩)

/-- The body-composition group of signals. -/
def bodyCompSignals (b : BodyCompAnalysis) : List Signal :=
  (if b.weight_rising_despite_deficit then
      [⟨warnIcon, ("Body Comp").data, risingMsg⟩] else [])
  ++ (if b.algorithm_recalibrating then [⟨warnIcon, ("Body Comp").data, recalMsg⟩] else [])

/-- The number of triggered conditions, as the spec counts them: one per
raised flag and one per entry of each flags dict. -/
def triggeredCount (r : RunningAnalysis) (s : StrengthAnalysis)
    (n : NutritionAnalysis) (b : BodyCompAnalysis) : ℕ :=
  (if r.aerobic_adaptation_signal then 1 else 0)
  + (if r.fatigue_signal then 1 else 0)
  + (if r.overreach_flag && r.mileage_change_pct.isSome then 1 else 0)
  + (if r.recovery_debt_flag then 1 else 0)
  + (if gctTrigger r.ground_contact_change_ms then 1 else 0)
  + (if s.pr_exercises ≠ [] then 1 else 0)
  + (if s.missed_muscle_groups ≠ [] then 1 else 0)
  + s.volume_drop_flags.length
  + (if n.low_protein_flag then 1 else 0)
  + (if n.low_carb_underfuel_flag then 1 else 0)
  + (if n.high_calorie_variance_flag then 1 else 0)
  + n.micronutrient_flags.length
  + (if b.weight_rising_despite_deficit then 1 else 0)
  + (if b.algorithm_recalibrating then 1 else 0)

/-! ### Dates and the tracking-restart flag (`config.py`, `body_comp.py`) -/

/-- Day number of a proleptic-Gregorian date, counted from 1970-01-01
(the standard civil calendar algorithm); `datetime.date` subtraction is
subtraction of these day numbers. -/
def daysFromCivil (y : ℤ) (m d : ℕ) : ℤ :=
  let y' : ℤ := if m ≤ 2 then y - 1 else y
  let era : ℤ := y'.fdiv 400
  let yoe : ℤ := y' - era * 400
  let doy : ℤ := (153 * ((m : ℤ) + (if 2 < m then -3 else 9)) + 2).fdiv 5 + (d : ℤ) - 1
  let doe : ℤ := yoe * 365 + yoe.fdiv 4 - yoe.fdiv 100 + doy
  era * 146097 + doe - 719468

/-- `TRACKING_RESTART = date(2026, 2, 16)` from `config.py`. -/
def TRACKING_RESTART : ℤ := daysFromCivil 2026 2 16

/-- The `algorithm_recalibrating` flag set by the body-composition analyzer:
`(week_end.date() - TRACKING_RESTART).days <= 21`. -/
def algorithm_recalibrating_flag (weekEnd : ℤ) : Bool :=
  decide (weekEnd - TRACKING_RESTART ≤ 21)

/-! ### Nutrition carb-underfuel flag (`analyzers/nutrition.py`) -/

def CARBS_UNDERFUEL_MIN_G : ℚ := 80

/-- pandas `Series.mean()` over the present (non-NaN) values of a column;
`none` when no value is present. -/
def pyMean (vals : List ℚ) : Option ℚ :=
  if vals = [] then none else some (vals.sum / (vals.length : ℚ))

/-- `low_carb_underfuel_flag`: average carbs present and `< 80` and weekly
mileage `> 30`. -/
def low_carb_underfuel_flag (carbVals : List ℚ) (weekly_mileage : ℚ) : Bool :=
  match pyMean carbVals with
  | some avg => decide (avg < CARBS_UNDERFUEL_MIN_G) && decide (30 < weekly_mileage)
  | none => false

/-! ### Prior rolling-baseline windows (`running.py`, `strength.py`) -/

/-- One prior window of the rolling baseline: the source iterates
`i = 1..n` with `w_end = start - (1 + 7*(i-1))` and `w_start = w_end - 6`;
here `j = i - 1`. -/
def priorWindow (start : ℤ) (j : ℕ) : ℤ × ℤ :=
  (start - (1 + 7 * (j : ℤ)) - 6, start - (1 + 7 * (j : ℤ)))

/-- The list of the `n` prior windows, in generation order. -/
def priorWindows (start : ℤ) (n : ℕ) : List (ℤ × ℤ) :=
  (List.range n).map (priorWindow start)

/-- Day membership in an inclusive window, as used by every window slice. -/
def inWindow (w : ℤ × ℤ) (d : ℤ) : Prop := w.1 ≤ d ∧ d ≤ w.2

/-! ### Running comparison signals (`analyzers/running.py`) -/

def MILEAGE_OVERREACH_PCT : ℚ := 1 / 10

/-- `mileage_change_pct`: set only when the rolling total is truthy and
positive (`if rolling.total_miles and rolling.total_miles > 0`). -/
def mileage_change_pct (cur roll : ℚ) : Option ℚ :=
  if roll ≠ 0 ∧ 0 < roll then some ((cur - roll) / roll) else none

/-- `overreach_flag`: the mileage change exceeds `MILEAGE_OVERREACH_PCT`. -/
def overreach_flag (cur roll : ℚ) : Bool :=
  match mileage_change_pct cur roll with
  | some pct => decide (MILEAGE_OVERREACH_PCT < pct)
  | none => false

/-- `aerobic_adaptation_signal`: both deltas present, pace delta `< -0.05`
and HR delta `<= 2`. -/
def aerobic_adaptation_signal (pace_change hr_change : Option ℚ) : Bool :=
  match pace_change, hr_change with
  | some p, some h => decide (p < -(1 / 20 : ℚ)) && decide (h ≤ 2)
  | _, _ => false

/-- `fatigue_signal`: both deltas present, pace delta `> 0.05` and HR delta
`> 2`. -/
def fatigue_signal (pace_change hr_change : Option ℚ) : Bool :=
  match pace_change, hr_change with
  | some p, some h => decide ((1 / 20 : ℚ) < p) && decide (2 < h)
  | _, _ => false

/-! ### Strength PR / regression detection (`analyzers/strength.py`) -/

/-- The positive weekly maxima of one exercise across the prior weeks:
`[d[ex] for d in prior_heaviest_list if ex in d and d[ex] > 0]`.  A weekly
`heaviest_by_exercise` dict is an association list. -/
def posVals (priorWeeks : List (List (List Char × ℚ))) (ex : List Char) : List ℚ :=
  priorWeeks.filterMap (fun d =>
    match List.lookup ex d with
    | some v => if 0 < v then some v else none
    | none => none)

/-- The rolling best for one exercise:
`prior_avg.heaviest_by_exercise[ex] = max(vals)` when `vals` is non-empty,
absent otherwise. -/
def priorBestFor (priorWeeks : List (List (List Char × ℚ))) (ex : List Char) :
    Option ℚ :=
  (posVals priorWeeks ex).max?

/-- One PR / regression display entry:
`f"{ex}: {prior_max:.0f} → {cur_max:.0f} lbs"`. -/
def liftEntry (ex : List Char) (priorMax curMax : ℚ) : List Char :=
  ex ++ (": ").data ++ fmt0f priorMax ++ (" → ").data ++ fmt0f curMax ++ (" lbs").data

/-- Body of the analyzer's PR/regression loop: `if cur_max > prior_max`
append to the PR list, `elif cur_max < prior_max * 0.95` append to the
regression list. -/
def prStep (priorWeeks : List (List (List Char × ℚ)))
    (acc : List (List Char) × List (List Char)) (p : List Char × ℚ) :
    List (List Char) × List (List Char) :=
  match priorBestFor priorWeeks p.1 with
  | some b =>
      if b < p.2 then (acc.1 ++ [liftEntry p.1 b p.2], acc.2)
      else if p.2 < b * (19 / 20) then (acc.1, acc.2 ++ [liftEntry p.1 b p.2])
      else acc
  | none => acc

/-- The loop over the current week's `heaviest_by_exercise`, producing
`(pr_exercises, regression_exercises)`. -/
def pr_and_regressions (cur : List (List Char × ℚ))
    (priorWeeks : List (List (List Char × ℚ))) :
    List (List Char) × List (List Char) :=
  cur.foldl (prStep priorWeeks) ([], [])

/-- Spec-side condition: an exercise's PR entry, listed exactly when the
current max strictly exceeds the rolling best. -/
def prEntry (best : List Char → Option ℚ) (p : List Char × ℚ) :
    Option (List Char) :=
  match best p.1 with
  | some b => if b < p.2 then some (liftEntry p.1 b p.2) else none
  | none => none

/-- Spec-side condition: an exercise's regression entry, listed exactly when
the current max is not a PR and is more than 5% below the rolling best. -/
def regEntry (best : List Char → Option ℚ) (p : List Char × ℚ) :
    Option (List Char) :=
  match best p.1 with
  | some b =>
      if ¬ b < p.2 ∧ p.2 < b * (19 / 20) then some (liftEntry p.1 b p.2) else none
  | none => none

/-- The scenario exercise name. -/
def benchName : List Char := ("Bench Press").data

/-- Four prior weeks of bench-press maxima for the spec scenario: rolling
best 135, one week with no entry, one zero entry (excluded). -/
def benchWeeks : List (List (List Char × ℚ)) :=
  [[(benchName, 135)], [], [(benchName, 130)], [(benchName, 0)]]

/-! ### Body-composition trend direction (`analyzers/body_comp.py`) -/

/-- `trend_net_change_lbs`: first/last of the window's valid trend readings,
both required truthy (Python `if start and end`). -/
def trend_net_change (vals : List ℚ) : Option ℚ :=
  match vals.head?, vals.getLast? with
  | some a, some b => if a ≠ 0 ∧ b ≠ 0 then some (b - a) else none
  | _, _ => none

/-- `trend_direction` and `trend_stalled` from the optional net change:
direction defaults to `"flat"` with the stalled flag left `False`; the
stalled flag is set only in the computed-flat branch. -/
def trend_direction_stalled (change : Option ℚ) : List Char × Bool :=
  match change with
  | none => (("flat").data, false)
  | some d =>
      if d < -(1 / 10 : ℚ) then (("down").data, false)
      else if (1 / 10 : ℚ) < d then (("up").data, false)
      else (("flat").data, true)

/-! ### Helper lemmas on the decimal-representation layer -/

theorem rat_floor_eq (q : ℚ) : q.floor = ⌊q⌋ := by
  rw [Rat.floor_def', Rat.floor_def]

theorem isDigitChar_digitChar {n : ℕ} (h : n < 10) :
    isDigitChar (digitChar n) = true := by
  interval_cases n <;> decide

theorem charVal_digitChar {n : ℕ} (h : n < 10) : charVal (digitChar n) = n := by
  interval_cases n <;> decide

/-- Value of a little-endian digit list read back big-endian-last. -/
def valFold (cs : List Char) : ℕ := cs.foldr (fun c a => 10 * a + charVal c) 0

theorem natDigitsRevAux_spec :
    ∀ fuel n, n < fuel →
      valFold (natDigitsRevAux fuel n) = n ∧
      (∀ c ∈ natDigitsRevAux fuel n, isDigitChar c = true) ∧
      natDigitsRevAux fuel n ≠ [] := by
  intro fuel
  induction fuel with
  | zero => intro n hn; omega
  | succ f ih =>
    intro n hn
    by_cases h10 : n < 10
    · refine ⟨?_, ?_, ?_⟩
      · simp [natDigitsRevAux, h10, valFold, charVal_digitChar h10]
      · intro c hc
        simp [natDigitsRevAux, h10] at hc
        subst hc
        exact isDigitChar_digitChar h10
      · simp [natDigitsRevAux, h10]
    · have hdiv : n / 10 < f := by omega
      obtain ⟨hval, hdig, _⟩ := ih (n / 10) hdiv
      have hstep : natDigitsRevAux (f + 1) n
          = digitChar (n % 10) :: natDigitsRevAux f (n / 10) := by
        simp [natDigitsRevAux, h10]
      refine ⟨?_, ?_, ?_⟩
      · rw [hstep]
        have hc := charVal_digitChar (show n % 10 < 10 by omega)
        simp only [valFold, List.foldr_cons] at hval ⊢
        rw [hval, hc]
        omega
      · intro c hc
        rw [hstep] at hc
        rcases List.mem_cons.mp hc with h | h
        · subst h; exact isDigitChar_digitChar (by omega)
        · exact hdig c h
      · rw [hstep]; exact List.cons_ne_nil _ _

theorem natRepr_digits {n : ℕ} : ∀ c ∈ natRepr n, isDigitChar c = true := by
  intro c hc
  exact (natDigitsRevAux_spec (n + 1) n (by omega)).2.1 c (List.mem_reverse.mp hc)

theorem natRepr_ne_nil (n : ℕ) : natRepr n ≠ [] := by
  unfold natRepr
  simp only [ne_eq, List.reverse_eq_nil_iff]
  exact (natDigitsRevAux_spec (n + 1) n (by omega)).2.2

theorem digitsToNat_natRepr (n : ℕ) : digitsToNat (natRepr n) = n := by
  unfold digitsToNat natRepr
  rw [List.foldl_reverse]
  exact (natDigitsRevAux_spec (n + 1) n (by omega)).1

theorem natDigitsRevAux_small {fuel n : ℕ} (hf : 0 < fuel) (h : n < 10) :
    natDigitsRevAux fuel n = [digitChar n] := by
  cases fuel with
  | zero => omega
  | succ f => simp [natDigitsRevAux, h]

theorem natRepr_small {n : ℕ} (h : n < 10) : natRepr n = [digitChar n] := by
  unfold natRepr
  rw [natDigitsRevAux_small (by omega) h]
  rfl

theorem natRepr_two {n : ℕ} (h1 : 10 ≤ n) (h2 : n < 100) :
    natRepr n = [digitChar (n / 10), digitChar (n % 10)] := by
  unfold natRepr
  have hstep : natDigitsRevAux (n + 1) n
      = digitChar (n % 10) :: natDigitsRevAux n (n / 10) := by
    have h10 : ¬ n < 10 := by omega
    cases n with
    | zero => omega
    | succ k => simp [natDigitsRevAux, h10]
  rw [hstep, natDigitsRevAux_small (by omega) (by omega)]
  rfl

/-- Two-digit second field: shape, digits, and value. -/
theorem pad2_two_digits {sec : ℕ} (h : sec < 100) :
    ∃ d1 d2, pad2 sec = [d1, d2] ∧ isDigitChar d1 = true ∧
      isDigitChar d2 = true ∧ 10 * charVal d1 + charVal d2 = sec := by
  by_cases h10 : sec < 10
  · refine ⟨'0', digitChar sec, ?_, by decide, isDigitChar_digitChar h10, ?_⟩
    · simp [pad2, h10, natRepr_small h10]
    · have := charVal_digitChar h10
      simp [charVal] at this ⊢
      omega
  · refine ⟨digitChar (sec / 10), digitChar (sec % 10), ?_,
      isDigitChar_digitChar (by omega), isDigitChar_digitChar (by omega), ?_⟩
    · simp [pad2, h10, natRepr_two (by omega) h]
    · rw [charVal_digitChar (by omega), charVal_digitChar (by omega)]
      omega

theorem dropWhile_eq_self {p : Char → Bool} {cs : List Char}
    (h : ∀ c ∈ cs, p c = false) : cs.dropWhile p = cs := by
  cases cs with
  | nil => rfl
  | cons c cs' => simp [List.dropWhile_cons, h c (by simp)]

theorem pyStrip_eq_self {cs : List Char}
    (h : ∀ c ∈ cs, isSpaceChar c = false) : pyStrip cs = cs := by
  unfold pyStrip
  rw [dropWhile_eq_self h, dropWhile_eq_self (fun c hc => h c (List.mem_reverse.mp hc)),
    List.reverse_reverse]

theorem digit_not_space {c : Char} (h : isDigitChar c = true) :
    isSpaceChar c = false := by
  cases hsp : isSpaceChar c
  · rfl
  · exfalso
    have hmem : ((c = ' ' ∨ c = '\t') ∨ c = '\n') ∨ c = '\r' := by
      simpa [isSpaceChar] using hsp
    rcases hmem with ((rfl | rfl) | rfl) | rfl <;> revert h <;> decide

theorem takeWhile_append_not {p : Char → Bool} :
    ∀ (xs : List Char) {y : Char} (ys : List Char), (∀ c ∈ xs, p c = true) →
      p y = false →
      (xs ++ y :: ys).takeWhile p = xs ∧ (xs ++ y :: ys).dropWhile p = y :: ys := by
  intro xs
  induction xs with
  | nil =>
    intro y ys _ hy
    simp [List.takeWhile_cons, List.dropWhile_cons, hy]
  | cons x xs' ih =>
    intro y ys hall hy
    have hx : p x = true := hall x (by simp)
    have hrest := ih ys (fun c hc => hall c (by simp [hc])) hy
    simp [List.takeWhile_cons, List.dropWhile_cons, hx, hrest.1, hrest.2]

theorem pySentinel_digit_head {c : Char} {cs : List Char}
    (h : isDigitChar c = true) : pySentinel (c :: cs) = false := by
  have h1 : c ≠ '-' := by rintro rfl; exact absurd h (by decide)
  have h2 : c ≠ 'n' := by rintro rfl; exact absurd h (by decide)
  simp [pySentinel, h1, h2]

theorem pyRound_natCast (k : ℕ) : pyRound (k : ℚ) = k := by
  unfold pyRound
  rw [rat_floor_eq]
  norm_num

theorem matchPace_mmss {m sec : ℕ} {d1 d2 : Char} (hpad : pad2 sec = [d1, d2])
    (hd1 : isDigitChar d1 = true) (hd2 : isDigitChar d2 = true) :
    matchPace (mmssOf m sec) = some (m, 10 * charVal d1 + charVal d2) := by
  have hspan := takeWhile_append_not (p := isDigitChar) (natRepr m)
    (d1 :: d2 :: []) (fun c hc => natRepr_digits c hc)
    (show isDigitChar ':' = false by decide)
  obtain ⟨c0, cs0, hrep⟩ := List.exists_cons_of_ne_nil (natRepr_ne_nil m)
  unfold mmssOf at hspan ⊢
  rw [hpad]
  unfold matchPace
  rw [hspan.1, hspan.2, hrep]
  simp only [hd1, hd2, Bool.and_self, if_true]
  rw [← hrep, digitsToNat_natRepr]

/-- Every character of a valid `MM:SS` string is a digit or the colon. -/
theorem mmssOf_no_space {m sec : ℕ} {d1 d2 : Char} (hpad : pad2 sec = [d1, d2])
    (hd1 : isDigitChar d1 = true) (hd2 : isDigitChar d2 = true) :
    ∀ c ∈ mmssOf m sec, isSpaceChar c = false := by
  intro c hc
  unfold mmssOf at hc
  rw [hpad] at hc
  rcases List.mem_append.mp hc with h | h
  · exact digit_not_space (natRepr_digits c h)
  · rcases List.mem_cons.mp h with rfl | h
    · decide
    · rcases List.mem_cons.mp h with rfl | h
      · exact digit_not_space hd1
      · rcases List.mem_cons.mp h with rfl | h
        · exact digit_not_space hd2
        · simp at h

/-- C1.  Pace round-trip: parsing a valid `MM:SS` pace string (seconds in
`[0, 59]`) with `_pace_to_decimal_minutes` and formatting the result back
with `_decimal_minutes_to_mmss` yields the original string. -/
theorem pace_roundtrip (m sec : ℕ) (h : sec ≤ 59) :
    decimal_minutes_to_mmss (pace_to_decimal_minutes (mmssOf m sec)) = mmssOf m sec := by
  obtain ⟨d1, d2, hpad, hd1, hd2, hval⟩ := pad2_two_digits (show sec < 100 by omega)
  have hstrip : pyStrip (mmssOf m sec) = mmssOf m sec :=
    pyStrip_eq_self (mmssOf_no_space hpad hd1 hd2)
  obtain ⟨c0, cs0, hrep⟩ := List.exists_cons_of_ne_nil (natRepr_ne_nil m)
  have hc0 : isDigitChar c0 = true := natRepr_digits c0 (by rw [hrep]; simp)
  have hsent : pySentinel (mmssOf m sec) = false := by
    unfold mmssOf
    rw [hrep, List.cons_append]
    exact pySentinel_digit_head hc0
  have hparse : pace_to_decimal_minutes (mmssOf m sec)
      = some ((m : ℚ) + (sec : ℚ) / 60) := by
    unfold pace_to_decimal_minutes
    simp only [hstrip, hsent, Bool.false_eq_true, if_false]
    rw [matchPace_mmss hpad hd1 hd2]
    simp only [hval]
  rw [hparse]
  simp only [decimal_minutes_to_mmss]
  have hq : ((m : ℚ) + (sec : ℚ) / 60) * 60 = ((60 * m + sec : ℕ) : ℚ) := by
    push_cast
    ring
  rw [hq, pyRound_natCast]
  have hfd : ((60 * m + sec : ℕ) : ℤ).fdiv 60 = (((60 * m + sec) / 60 : ℕ) : ℤ) := by
    rw [Int.fdiv_eq_ediv _ (by omega)]
    omega
  have hfm : ((60 * m + sec : ℕ) : ℤ).fmod 60 = (((60 * m + sec) % 60 : ℕ) : ℤ) := by
    rw [Int.fmod_eq_emod _ (by omega)]
    omega
  rw [hfd, hfm]
  have h1 : (60 * m + sec) / 60 = m := by omega
  have h2 : (60 * m + sec) % 60 = sec := by omega
  rw [h1, h2]
  have h3 : intRepr (m : ℤ) = natRepr m := by
    unfold intRepr
    rw [if_neg (by omega)]
    simp
  rw [h3]
  simp only [Int.toNat_natCast]
  rfl

/-- Witness for C1 at the spec's own scenario `"8:15"`. -/
theorem pace_roundtrip_witness :
    decimal_minutes_to_mmss (pace_to_decimal_minutes (mmssOf 8 15)) = mmssOf 8 15 :=
  pace_roundtrip 8 15 (by decide)

/-- Sanity check of the civil-calendar embedding at the Unix epoch. -/
theorem daysFromCivil_epoch : daysFromCivil 1970 1 1 = 0 := by decide

/-- C2.  The code sets `algorithm_recalibrating` for a week ending 2025-01-01,
411 days BEFORE the tracking-restart date 2026-02-16, because the check
`days_since_restart <= 21` has no lower bound; such a week is not within 21
days of the restart date, contradicting the spec and the code's own comments
("first 2-3 weeks post-restart"). -/
theorem algorithm_recalibrating_pre_restart :
    algorithm_recalibrating_flag (daysFromCivil 2025 1 1) = true ∧
    TRACKING_RESTART - daysFromCivil 2025 1 1 = 411 ∧
    (∀ e : ℤ, algorithm_recalibrating_flag e = true ↔ e - TRACKING_RESTART ≤ 21) := by
  refine ⟨by decide, by decide, ?_⟩
  intro e
  simp [algorithm_recalibrating_flag]

/-- C3.  The carb-underfuel flag holds exactly when the average of the present
carb values is strictly below 80 g and the weekly mileage is strictly greater
than 30; mileage exactly 30 never triggers it, average exactly 80 never
triggers it. -/
theorem carb_underfuel_spec :
    (∀ vals mi, low_carb_underfuel_flag vals mi = true ↔
        ∃ a, pyMean vals = some a ∧ a < 80 ∧ 30 < mi) ∧
    (∀ vals, low_carb_underfuel_flag vals 30 = false) ∧
    (∀ vals mi, pyMean vals = some 80 → low_carb_underfuel_flag vals mi = false) := by
  refine ⟨?_, ?_, ?_⟩
  · intro vals mi
    unfold low_carb_underfuel_flag
    cases hm : pyMean vals with
    | none => simp
    | some a =>
      simp only [Bool.and_eq_true, decide_eq_true_eq, Option.some.injEq]
      constructor
      · rintro ⟨h1, h2⟩
        exact ⟨a, rfl, h1, h2⟩
      · rintro ⟨b, rfl, h1, h2⟩
        exact ⟨h1, h2⟩
  · intro vals
    unfold low_carb_underfuel_flag
    cases pyMean vals with
    | none => rfl
    | some a => simp
  · intro vals mi hm
    unfold low_carb_underfuel_flag
    rw [hm]
    simp [CARBS_UNDERFUEL_MIN_G]

/-- Witness for C3: a week averaging exactly 80 g of carbs does not trigger
the flag even at mileage 31. -/
theorem carb_underfuel_witness :
    pyMean [(80 : ℚ)] = some 80 ∧ low_carb_underfuel_flag [(80 : ℚ)] 31 = false := by
  have hm : pyMean [(80 : ℚ)] = some 80 := by norm_num [pyMean]
  exact ⟨hm, carb_underfuel_spec.2.2 [(80 : ℚ)] 31 hm⟩

/-- C4.  The 4 prior rolling-baseline windows: each is 7 days long
(inclusive bounds differing by 6), strictly precedes the week start, the
windows are pairwise disjoint, and each successive window ends the day
before the previous one starts. -/
theorem prior_windows_spec (start : ℤ) :
    (priorWindows start 4).length = 4 ∧
    (∀ j, j < 4 → (priorWindows start 4).get? j = some (priorWindow start j)) ∧
    (∀ j, j < 4 → (priorWindow start j).2 - (priorWindow start j).1 = 6) ∧
    (∀ j, j < 4 → (priorWindow start j).2 < start) ∧
    (∀ i j d, i < 4 → j < 4 → i ≠ j →
        ¬(inWindow (priorWindow start i) d ∧ inWindow (priorWindow start j) d)) ∧
    (∀ j, j + 1 < 4 → (priorWindow start (j + 1)).2 = (priorWindow start j).1 - 1) := by
  refine ⟨by simp [priorWindows], ?_, ?_, ?_, ?_, ?_⟩
  · intro j hj
    simp [priorWindows, List.get?_eq_getElem?, List.getElem?_map, List.getElem?_range, hj]
  · intro j hj
    simp only [priorWindow]
    ring
  · intro j hj
    simp only [priorWindow]
    have : (0 : ℤ) ≤ (j : ℤ) := by positivity
    omega
  · intro i j d hi hj hij h
    obtain ⟨⟨h1, h2⟩, ⟨h3, h4⟩⟩ := h
    simp only [priorWindow] at h1 h2 h3 h4
    have hcast : (i : ℤ) ≠ (j : ℤ) := by exact_mod_cast hij
    omega
  · intro j hj
    simp only [priorWindow]
    push_cast
    ring

/-- Witness for C4 at `start = 0`, `j = 3`. -/
theorem prior_windows_witness :
    (priorWindow 0 3).2 - (priorWindow 0 3).1 = 6 ∧ (priorWindow 0 3).2 < 0 :=
  ⟨(prior_windows_spec 0).2.2.1 3 (by decide), (prior_windows_spec 0).2.2.2.1 3 (by decide)⟩

/-- C5.  With both deltas present, aerobic adaptation holds exactly when the
pace delta is `< -0.05` and the HR delta is `<= 2`, fatigue holds exactly
when the pace delta is `> 0.05` and the HR delta is `> 2`; the two signals
are never simultaneously true, and both are false when either delta is
absent. -/
theorem adaptation_fatigue_spec :
    (∀ p h : ℚ, aerobic_adaptation_signal (some p) (some h) = true ↔
        p < -(1 / 20) ∧ h ≤ 2) ∧
    (∀ p h : ℚ, fatigue_signal (some p) (some h) = true ↔ (1 / 20 : ℚ) < p ∧ 2 < h) ∧
    (∀ pc hc : Option ℚ,
        ¬(aerobic_adaptation_signal pc hc = true ∧ fatigue_signal pc hc = true)) ∧
    (∀ pc hc : Option ℚ, pc = none ∨ hc = none →
        aerobic_adaptation_signal pc hc = false ∧ fatigue_signal pc hc = false) := by
  refine ⟨?_, ?_, ?_, ?_⟩
  · intro p h
    simp [aerobic_adaptation_signal]
  · intro p h
    simp [fatigue_signal]
  · rintro pc hc ⟨ha, hf⟩
    cases pc with
    | none => simp [aerobic_adaptation_signal] at ha
    | some p =>
      cases hc with
      | none => simp [aerobic_adaptation_signal] at ha
      | some h =>
        simp [aerobic_adaptation_signal] at ha
        simp [fatigue_signal] at hf
        linarith [ha.1, hf.1]
  · rintro pc hc (rfl | rfl)
    · exact ⟨rfl, rfl⟩
    · cases pc <;> exact ⟨rfl, rfl⟩

/-- Witness for C5: an absent pace delta forces both signals off. -/
theorem adaptation_fatigue_witness :
    aerobic_adaptation_signal none (some 5) = false ∧
    fatigue_signal none (some 5) = false :=
  adaptation_fatigue_spec.2.2.2 none (some 5) (Or.inl rfl)

/-- C7.  When the rolling total is positive, `mileage_change_pct` is
`(current - rolling) / rolling` and the overreach flag holds exactly when
that exceeds `0.10`; a zero rolling total leaves the change absent and the
flag false; rolling 20.0 and current 23.0 give change `0.15` and a raised
flag. -/
theorem mileage_overreach_spec :
    (∀ cur roll : ℚ, 0 < roll →
        mileage_change_pct cur roll = some ((cur - roll) / roll) ∧
        (overreach_flag cur roll = true ↔ 1 / 10 < (cur - roll) / roll)) ∧
    (∀ cur : ℚ, mileage_change_pct cur 0 = none ∧ overreach_flag cur 0 = false) ∧
    mileage_change_pct 23 20 = some (3 / 20) ∧ overreach_flag 23 20 = true := by
  have hbase : ∀ cur roll : ℚ, 0 < roll →
      mileage_change_pct cur roll = some ((cur - roll) / roll) ∧
      (overreach_flag cur roll = true ↔ 1 / 10 < (cur - roll) / roll) := by
    intro cur roll hroll
    have hcond : roll ≠ 0 ∧ 0 < roll := ⟨ne_of_gt hroll, hroll⟩
    constructor
    · simp [mileage_change_pct, hcond]
    · simp [overreach_flag, mileage_change_pct, hcond, MILEAGE_OVERREACH_PCT]
  refine ⟨hbase, ?_, ?_, ?_⟩
  · intro cur
    constructor
    · simp [mileage_change_pct]
    · simp [overreach_flag, mileage_change_pct]
  · rw [(hbase 23 20 (by norm_num)).1]
    norm_num
  · rw [(hbase 23 20 (by norm_num)).2]
    norm_num

/-- Witness for C7 at the spec's overreach scenario (rolling 20, current 23). -/
theorem mileage_overreach_witness :
    mileage_change_pct 23 20 = some ((23 - 20) / 20) ∧
    (overreach_flag 23 20 = true ↔ (1 : ℚ) / 10 < (23 - 20) / 20) :=
  mileage_overreach_spec.1 23 20 (by norm_num)

/-- C10.  With no valid trend reading in the window the analyzer reports a
`"flat"` direction with the stalled flag left false; the stalled flag holds
exactly when a computed net change lies within `[-0.1, 0.1]`. -/
theorem trend_stalled_spec :
    trend_direction_stalled (trend_net_change []) = (("flat").data, false) ∧
    (∀ c : Option ℚ, (trend_direction_stalled c).2 = true ↔
        ∃ d, c = some d ∧ -(1 / 10 : ℚ) ≤ d ∧ d ≤ 1 / 10) ∧
    (∀ d : ℚ, -(1 / 10 : ℚ) ≤ d → d ≤ 1 / 10 →
        trend_direction_stalled (some d) = (("flat").data, true)) := by
  have harm : ∀ d : ℚ, -(1 / 10 : ℚ) ≤ d → d ≤ 1 / 10 →
      trend_direction_stalled (some d) = (("flat").data, true) := by
    intro d h1 h2
    simp only [trend_direction_stalled]
    rw [if_neg (not_lt.mpr h1), if_neg (not_lt.mpr h2)]
  refine ⟨rfl, ?_, harm⟩
  intro c
  cases c with
  | none => simp [trend_direction_stalled]
  | some d =>
    constructor
    · intro h
      by_cases hlt : d < -(1 / 10 : ℚ)
      · simp only [trend_direction_stalled] at h
        rw [if_pos hlt] at h
        exact absurd h (by simp)
      · by_cases hgt : (1 / 10 : ℚ) < d
        · simp only [trend_direction_stalled] at h
          rw [if_neg hlt, if_pos hgt] at h
          exact absurd h (by simp)
        · exact ⟨d, rfl, not_lt.mp hlt, not_lt.mp hgt⟩
    · rintro ⟨e, he, h1, h2⟩
      have hde : d = e := by injection he
      subst hde
      rw [harm d h1 h2]

/-- Witness for C10: a net change of exactly 0 is reported flat and stalled. -/
theorem trend_stalled_witness :
    trend_direction_stalled (some 0) = (("flat").data, true) :=
  trend_stalled_spec.2.2 0 (by norm_num) (by norm_num)

/-- C8.  For every numeric cell kind (generic, comma-formatted, pace,
duration): any string that strips to a sentinel parses to the missing
marker; in particular `"--"`, `""` and `"nan"` parse to missing, never
`0.0`, and an unparsable string (`"abc"`) also parses to missing rather
than raising or producing zero. -/
theorem sentinel_missing_spec :
    (∀ cs, pySentinel (pyStrip cs) = true →
      clean_generic cs = none ∧ strip_comma_numeric cs = none ∧
      pace_to_decimal_minutes cs = none ∧ parse_duration cs = none) ∧
    (clean_generic (("--").data) = none ∧ clean_generic (("").data) = none ∧
      clean_generic (("nan").data) = none ∧ clean_generic (("abc").data) = none) ∧
    (strip_comma_numeric (("--").data) = none ∧
      strip_comma_numeric (("").data) = none ∧
      strip_comma_numeric (("nan").data) = none ∧
      strip_comma_numeric (("abc").data) = none) ∧
    (pace_to_decimal_minutes (("--").data) = none ∧
      pace_to_decimal_minutes (("").data) = none ∧
      pace_to_decimal_minutes (("nan").data) = none ∧
      pace_to_decimal_minutes (("abc").data) = none) ∧
    (parse_duration (("--").data) = none ∧ parse_duration (("").data) = none ∧
      parse_duration (("nan").data) = none ∧ parse_duration (("abc").data) = none) := by
  refine ⟨?_, by decide, by decide, by decide, by decide⟩
  intro cs h
  refine ⟨?_, ?_, ?_, ?_⟩
  · simp [clean_generic, h]
  · simp [strip_comma_numeric, h]
  · simp [pace_to_decimal_minutes, h]
  · simp [parse_duration, h]

/-- Witness for C8: the `"--"` sentinel strips to itself and parses to
missing in the generic cell kind. -/
theorem sentinel_missing_witness :
    pySentinel (pyStrip (("--").data)) = true ∧ clean_generic (("--").data) = none :=
  ⟨by decide, (sentinel_missing_spec.1 (("--").data) (by decide)).1⟩

/-! ### Helper lemmas for the strength baseline -/

theorem foldl_max_mem (xs : List ℚ) (x : ℚ) :
    xs.foldl max x ∈ x :: xs ∧ x ≤ xs.foldl max x ∧
      ∀ w ∈ xs, w ≤ xs.foldl max x := by
  induction xs generalizing x with
  | nil => simp
  | cons y ys ih =>
    obtain ⟨hmem, hle, hall⟩ := ih (max x y)
    refine ⟨?_, ?_, ?_⟩
    · rcases List.mem_cons.mp hmem with h | h
      · rcases max_choice x y with hxy | hxy
        · rw [List.foldl_cons, h, hxy]; exact List.mem_cons_self _ _
        · rw [List.foldl_cons, h, hxy]; simp
      · rw [List.foldl_cons]; simp [h]
    · rw [List.foldl_cons]; exact le_trans (le_max_left x y) hle
    · intro w hw
      rw [List.foldl_cons]
      rcases List.mem_cons.mp hw with rfl | hw
      · exact le_trans (le_max_right x w) hle
      · exact hall w hw

theorem max?_spec {l : List ℚ} {v : ℚ} (h : l.max? = some v) :
    v ∈ l ∧ ∀ w ∈ l, w ≤ v := by
  cases l with
  | nil => simp [List.max?] at h
  | cons x xs =>
    have hv : xs.foldl max x = v := by
      simpa [List.max?] using h
    obtain ⟨hmem, hle, hall⟩ := foldl_max_mem xs x
    rw [hv] at hmem hle hall
    refine ⟨hmem, ?_⟩
    intro w hw
    rcases List.mem_cons.mp hw with rfl | hw
    · exact hle
    · exact hall w hw

theorem posVals_pos {weeks : List (List (List Char × ℚ))} {ex : List Char} :
    ∀ v ∈ posVals weeks ex, 0 < v := by
  intro v hv
  obtain ⟨d, _, hmatch⟩ := List.mem_filterMap.mp hv
  cases hl : List.lookup ex d with
  | none => rw [hl] at hmatch; exact absurd hmatch (by simp)
  | some w =>
    rw [hl] at hmatch
    dsimp only at hmatch
    by_cases hw : 0 < w
    · rw [if_pos hw] at hmatch
      have : w = v := by injection hmatch
      rw [← this]; exact hw
    · rw [if_neg hw] at hmatch
      exact absurd hmatch (by simp)

theorem pr_fold (weeks : List (List (List Char × ℚ))) :
    ∀ (cur : List (List Char × ℚ)) (acc : List (List Char) × List (List Char)),
      cur.foldl (prStep weeks) acc
        = (acc.1 ++ cur.filterMap (prEntry (priorBestFor weeks)),
           acc.2 ++ cur.filterMap (regEntry (priorBestFor weeks))) := by
  intro cur
  induction cur with
  | nil => intro acc; simp
  | cons p rest ih =>
    intro acc
    rw [List.foldl_cons, ih]
    cases hb : priorBestFor weeks p.1 with
    | none => simp [prStep, prEntry, regEntry, hb]
    | some b =>
      by_cases h1 : b < p.2
      · simp [prStep, prEntry, regEntry, hb, h1]
      · by_cases h2 : p.2 < b * (19 / 20)
        · simp [prStep, prEntry, regEntry, hb, h1, h2]
        · simp [prStep, prEntry, regEntry, hb, h1, h2]

theorem fmt0f_natCast (k : ℕ) : fmt0f (k : ℚ) = natRepr k := by
  unfold fmt0f
  rw [pyRound_natCast]
  unfold intRepr
  rw [if_neg (by omega)]
  simp

theorem benchWeeks_posVals : posVals benchWeeks benchName = [135, 130] := by
  norm_num [posVals, benchWeeks, List.filterMap, List.lookup]

theorem benchWeeks_best : priorBestFor benchWeeks benchName = some 135 := by
  rw [priorBestFor, benchWeeks_posVals]
  have hmax : max (135 : ℚ) 130 = 135 := max_eq_left (by norm_num)
  simp [List.max?, hmax]

/-- C6.  The strength rolling baseline for an exercise is the maximum (not
the average) of its positive weekly maxima over the 4 prior windows, with
zero/negative weekly values excluded; exercises are listed as PRs exactly
when the current max strictly exceeds that baseline and as regressions
exactly when it is more than 5% below it; a baseline of 135 with current
140 yields the PR entry `"Bench Press: 135 → 140 lbs"`, with current 128 a
regression entry instead. -/
theorem strength_pr_regression_spec :
    (∀ weeks ex v, priorBestFor weeks ex = some v →
        (v ∈ posVals weeks ex ∧ ∀ w ∈ posVals weeks ex, w ≤ v) ∧ 0 < v) ∧
    (∀ cur weeks, pr_and_regressions cur weeks =
        (cur.filterMap (prEntry (priorBestFor weeks)),
         cur.filterMap (regEntry (priorBestFor weeks)))) ∧
    (∀ b c : ℚ, 0 < b → ((¬ b < c ∧ c < b * (19 / 20)) ↔ c < b * (19 / 20))) ∧
    pr_and_regressions [(benchName, 140)] benchWeeks
      = ([(("Bench Press: 135 → 140 lbs").data)], []) ∧
    pr_and_regressions [(benchName, 128)] benchWeeks
      = ([], [(("Bench Press: 135 → 128 lbs").data)]) ∧
    priorBestFor [[(benchName, 0)]] benchName = none := by
  have hentry140 : liftEntry benchName 135 140
      = (("Bench Press: 135 → 140 lbs").data) := by
    unfold liftEntry
    rw [show (135 : ℚ) = ((135 : ℕ) : ℚ) by norm_num,
      show (140 : ℚ) = ((140 : ℕ) : ℚ) by norm_num, fmt0f_natCast, fmt0f_natCast]
    decide
  have hentry128 : liftEntry benchName 135 128
      = (("Bench Press: 135 → 128 lbs").data) := by
    unfold liftEntry
    rw [show (135 : ℚ) = ((135 : ℕ) : ℚ) by norm_num,
      show (128 : ℚ) = ((128 : ℕ) : ℚ) by norm_num, fmt0f_natCast, fmt0f_natCast]
    decide
  refine ⟨?_, ?_, ?_, ?_, ?_, ?_⟩
  · intro weeks ex v h
    have hm := max?_spec (l := posVals weeks ex) h
    exact ⟨hm, posVals_pos v hm.1⟩
  · intro cur weeks
    unfold pr_and_regressions
    rw [pr_fold]
    simp
  · intro b c hb
    constructor
    · rintro ⟨_, h⟩
      exact h
    · intro h
      have hlt : b * (19 / 20) < b := by nlinarith
      exact ⟨by linarith, h⟩
  · have hpr : prEntry (priorBestFor benchWeeks) (benchName, 140)
        = some (liftEntry benchName 135 140) := by
      simp only [prEntry, benchWeeks_best]
      rw [if_pos (by norm_num : (135 : ℚ) < 140)]
    have hreg : regEntry (priorBestFor benchWeeks) (benchName, 140) = none := by
      simp only [regEntry, benchWeeks_best]
      rw [if_neg (by norm_num : ¬(¬ (135 : ℚ) < 140 ∧ (140 : ℚ) < 135 * (19 / 20)))]
    unfold pr_and_regressions
    rw [pr_fold]
    simp [hpr, hreg, hentry140]
  · have hpr : prEntry (priorBestFor benchWeeks) (benchName, 128) = none := by
      simp only [prEntry, benchWeeks_best]
      rw [if_neg (by norm_num : ¬ (135 : ℚ) < 128)]
    have hreg : regEntry (priorBestFor benchWeeks) (benchName, 128)
        = some (liftEntry benchName 135 128) := by
      simp only [regEntry, benchWeeks_best]
      rw [if_pos (by norm_num : ¬ (135 : ℚ) < 128 ∧ (128 : ℚ) < 135 * (19 / 20))]
    unfold pr_and_regressions
    rw [pr_fold]
    simp [hpr, hreg, hentry128]
  · rw [priorBestFor]
    have hnil : posVals [[(benchName, 0)]] benchName = [] := by
      norm_num [posVals, List.lookup]
    rw [hnil]
    rfl

/-- Witness for C6: the scenario baseline 135 is one of the positive weekly
maxima and is itself positive. -/
theorem strength_pr_regression_witness :
    135 ∈ posVals benchWeeks benchName ∧ (0 : ℚ) < 135 :=
  ⟨(strength_pr_regression_spec.1 benchWeeks benchName 135 benchWeeks_best).1.1,
   (strength_pr_regression_spec.1 benchWeeks benchName 135 benchWeeks_best).2⟩

/-! ### Helper lemmas for the signal detector -/

theorem length_ite_singleton {α : Type} (c : Prop) [Decidable c] (x : α) :
    (if c then [x] else []).length = if c then 1 else 0 := by
  split <;> rfl

theorem mem_ite_singleton {α : Type} {a x : α} {c : Prop} [Decidable c]
    (h : a ∈ (if c then [x] else [])) : a = x := by
  split at h
  · simpa using h
  · simp at h

/-- C9.  The detector's output is the running group, then the strength
group, then the nutrition group, then the body-composition group, each with
its fixed internal ordering and uniform category; an untriggered flag
contributes nothing, so the output length is exactly the number of
triggered conditions. -/
theorem detect_grouping_spec (r : RunningAnalysis) (s : StrengthAnalysis)
    (n : NutritionAnalysis) (b : BodyCompAnalysis) :
    detect r s n b = runningSignals r ++ strengthSignals s
        ++ nutritionSignals n ++ bodyCompSignals b ∧
    ((runningSignals r).all fun sg => sg.category == ("Running").data) = true ∧
    ((strengthSignals s).all fun sg => sg.category == ("Strength").data) = true ∧
    ((nutritionSignals n).all fun sg => sg.category == ("Nutrition").data) = true ∧
    ((bodyCompSignals b).all fun sg => sg.category == ("Body Comp").data) = true ∧
    (detect r s n b).length = triggeredCount r s n b := by
  refine ⟨?_, ?_, ?_, ?_, ?_, ?_⟩
  · simp [detect, runningSignals, strengthSignals, nutritionSignals,
      bodyCompSignals, List.append_assoc]
  · rw [List.all_eq_true]
    intro sg hsg
    unfold runningSignals at hsg
    simp only [List.mem_append] at hsg
    rcases hsg with ((((h | h) | h) | h) | h) <;>
      · rw [mem_ite_singleton h]
        simp
  · rw [List.all_eq_true]
    intro sg hsg
    unfold strengthSignals at hsg
    simp only [List.mem_append] at hsg
    rcases hsg with (h | h) | h
    · rw [mem_ite_singleton h]; simp
    · rw [mem_ite_singleton h]; simp
    · obtain ⟨p, _, rfl⟩ := List.mem_map.mp h
      simp
  · rw [List.all_eq_true]
    intro sg hsg
    unfold nutritionSignals at hsg
    simp only [List.mem_append] at hsg
    rcases hsg with ((h | h) | h) | h
    · rw [mem_ite_singleton h]; simp
    · rw [mem_ite_singleton h]; simp
    · rw [mem_ite_singleton h]; simp
    · obtain ⟨p, _, rfl⟩ := List.mem_map.mp h
      simp
  · rw [List.all_eq_true]
    intro sg hsg
    unfold bodyCompSignals at hsg
    simp only [List.mem_append] at hsg
    rcases hsg with h | h <;>
      · rw [mem_ite_singleton h]
        simp
  · simp only [detect, triggeredCount, List.length_append, length_ite_singleton,
      List.length_map]

end PeakForm
